import Mathlib

/-!
Verification development for the discord-bot-application repository.

Shallow embedding of the two core subsystems of the repository:

* `ConfigManager` (src/utils/util.py, duplicated in src/dc_bot.py): a flat
  key/value configuration persisted by rewriting the backing JSON file.
* `RoleManager` (src/utils/role.py, duplicated in src/dc_bot.py): the
  reaction-to-role reconciler (`post_or_update_role_message`, `handle_role`).
* `ChannelManager` (src/utils/channel.py): the archival pipeline
  (`handle_channel`, `save_to_json`, `fetch_all_messages`, `download_image`).

External collaborators (the Discord client, the network, the filesystem) are
modelled as explicit environments: functions giving the outcome of each
outbound call.  Python exceptions are modelled with explicit error values;
effectful code returns a trace of the externally visible calls it performed
together with an optional uncaught exception.
-/

/-- Python exceptions that the embedded code can raise and leave uncaught. -/
inductive PyErr where
  /-- Python `ValueError`, raised by `post_or_update_role_message` when no channel id
  is configured. -/
  | valueError
  /-- Python `KeyError`, raised by a Python dict subscript `d[k]` when `k` is absent
  (here: `self.emoji_ids[emoji_id]`). -/
  | keyError
  /-- Python `AttributeError`, raised when `channel.history` is accessed on `None`. -/
  | attributeError
  deriving DecidableEq, Repr

/-! ConfigManager (src/utils/util.py lines 29-38, src/dc_bot.py lines 29-38)

The configuration is a flat JSON object.  The only key the core ever writes is
`role_message_id`, whose value is an integer, so we model the stored mapping
as an association list from string keys to natural numbers.  `save_config`
opens the backing file with mode `"w"` (which truncates it at once) and then
streams `json.dump(self.config, f, indent=4)` into it; there is no temporary
file and no atomic replace.  We model the on-disk file as the string it
contains and a write as: truncate, then emit the serialized text character by
character.  An I/O fault is modelled by the number of characters that were
emitted before the failure; `none` means the write ran to completion. -/

/-- Python `dict.__setitem__`: set `k` to `v`, keeping insertion order (Python dicts
keep the position of an existing key). -/
def setKey (cfg : List (String × Nat)) (k : String) (v : Nat) : List (String × Nat) :=
  if cfg.any (fun p => p.1 = k) then
    cfg.map (fun p => if p.1 = k then (k, v) else p)
  else
    cfg ++ [(k, v)]

/-- The text `json.dump(config, f, indent=4)` produces for a flat object with
integer values, matching Python's formatting (`\x7b\x7d` for the empty object,
otherwise one `    "key": value` line per entry separated by `,\n`). -/
def dumpConfig (cfg : List (String × Nat)) : String :=
  match cfg with
  | [] => "\x7b\x7d"
  | _ =>
    "\x7b\n"
      ++ String.intercalate ",\n"
          (cfg.map (fun p => "    \"" ++ p.1 ++ "\": " ++ Nat.repr p.2))
      ++ "\n\x7d"

/-- Writing string `s` over a file that currently holds `old`, with mode
`"w"`: the open truncates the file, then the characters of `s` are emitted in
order.  `fault = some n` means an I/O error struck after `n` characters, so
the file is left holding the prefix written so far and the error propagates
(`false` flags the reported failure); `fault = none` is a complete write. -/
def writeFileRun (old : String) (s : String) (fault : Option Nat) : String × Bool :=
  match fault with
  | none => (s, true)
  | some n => ((s.take n), false)

/-- Model of `ConfigManager.set` (util.py lines 36-38): mutate the in-memory mapping,
then `save_config` rewrites the whole backing file in place.  Returns the new
in-memory mapping, the resulting on-disk content, and whether the call
returned successfully (`false` = the write's I/O error propagated). -/
def configSet (cfg : List (String × Nat)) (disk : String) (k : String) (v : Nat)
    (fault : Option Nat) : List (String × Nat) × String × Bool :=
  let cfg' := setKey cfg k v
  let w := writeFileRun disk (dumpConfig cfg') fault
  (cfg', w.1, w.2)

/-! RoleManager (src/utils/role.py, duplicated in src/dc_bot.py)

`RoleManager.__init__` copies the relevant configuration entries into
attributes; we model that snapshot directly.  Marker (emoji) ids are the
string keys of the JSON maps `emoji_ids` and `emoji_to_role`; both maps are
association lists so that Python's insertion-ordered dict iteration is the
list order.  Channel ids come from `config.get(...)`, which yields `None`
when absent, and the code tests them with `if not channel_id:`; we fold the
two falsy cases (`None` and `0`) into the single value `0`. -/

/-- One value of the `emoji_to_role` map: `{role_id, role_name}`. -/
structure RoleInfo where
  role_id : Nat
  role_name : String
  deriving DecidableEq, Repr

/-- The attribute snapshot `RoleManager.__init__` takes from the config
(role.py lines 12-18). -/
structure RMState where
  dev_mode : Bool
  rule_msg : String
  role_message_id : Nat
  emoji_ids : List (String × String)
  emoji_to_role : List (String × RoleInfo)
  /-- Value of `config.get("test_command_channel_id")`; `0` stands for the falsy
  values `None` and `0`. -/
  test_command_channel_id : Nat
  /-- Value of `config.get("bot_command_channel_id")`; `0` stands for falsy. -/
  bot_command_channel_id : Nat

/-- The channel id `post_or_update_role_message` selects (role.py lines
23-27): the test channel in dev mode, the bot command channel otherwise. -/
def selectedChannelId (st : RMState) : Nat :=
  if st.dev_mode then st.test_command_channel_id else st.bot_command_channel_id

/-- One line of the role-selection message (role.py line 51):
`f"> 🔹 {role_info['role_name']} → <:{self.emoji_ids[emoji_id]}:{emoji_id}>\n"`. -/
def lineFor (emojiName emojiId roleName : String) : String :=
  "> 🔹 " ++ roleName ++ " → <:" ++ emojiName ++ ":" ++ emojiId ++ ">\n"

/-- The content-rendering loop of `post_or_update_role_message` (role.py
lines 47-51): starting from `content = self.rule_msg`, iterate over
`emoji_to_role`; when the bound role resolves in the guild the line for the
binding is appended, and inside that branch `self.emoji_ids[emoji_id]`
raises `KeyError` when the marker id has no entry there. -/
def renderAux (ids : List (String × String)) (getRole : Nat → Bool) :
    List (String × RoleInfo) → String → Except PyErr String
  | [], content => .ok content
  | (emojiId, info) :: rest, content =>
    if getRole info.role_id then
      match List.lookup emojiId ids with
      | none => .error .keyError
      | some nm => renderAux ids getRole rest (content ++ lineFor nm emojiId info.role_name)
    else
      renderAux ids getRole rest content

/-- The rendered content of one reconciliation pass, given the guild's
`get_role` outcomes. -/
def renderContent (st : RMState) (getRole : Nat → Bool) : Except PyErr String :=
  renderAux st.emoji_ids getRole st.emoji_to_role st.rule_msg

/-- Outcome of the `channel.fetch_message` + `message.edit` attempt
(role.py lines 55-63): success, `discord.NotFound`, or any other
`discord.HTTPException`. -/
inductive EditOutcome where
  | ok
  | notFound
  | httpError
  deriving DecidableEq, Repr

/-- The environment of outcomes of one `post_or_update_role_message` call:
whether `bot.get_channel` resolves, which roles `guild.get_role` resolves,
the outcome of the fetch-and-edit attempt, and the id Discord assigns to a
newly sent message. -/
structure SyncEnv where
  channelFound : Bool
  getRole : Nat → Bool
  editOutcome : EditOutcome
  newMessageId : Nat

/-- Externally visible effects of one reconciliation pass, in program
order. -/
inductive Effect where
  /-- Call `message.edit(content=...)` succeeded on the stored message id. -/
  | editMsg (id : Nat) (content : String)
  /-- Call `channel.send(content)`: a new canonical message was created. -/
  | sendMsg (content : String)
  /-- Assignment `self.role_message_id = message.id`: the in-memory id was updated. -/
  | setMemId (id : Nat)
  /-- Call `self.config.set(key, message.id)`: the id was persisted to the
  configuration file. -/
  | persist (key : String) (id : Nat)
  /-- Call `message.add_reaction(emoji)` was attempted (its own failures are
  caught in place, role.py lines 76-81). -/
  | addReaction (emoji : String)
  deriving DecidableEq, Repr

/-- The marker-attachment loop (role.py lines 72-81): for every key of
`emoji_to_role`, the reaction string is built first — and there
`self.emoji_ids[emoji_id]` raises `KeyError` outside any handler when the
key is absent — and only the `add_reaction` call itself sits in a
`try/except` that absorbs its failures.  Returns the effects performed
before the loop finished or died, plus the uncaught error if any. -/
def addReactionsRun (ids : List (String × String)) :
    List (String × RoleInfo) → List Effect × Option PyErr
  | [] => ([], none)
  | (emojiId, _) :: rest =>
    match List.lookup emojiId ids with
    | none => ([], some .keyError)
    | some nm =>
      let r := addReactionsRun ids rest
      (.addReaction ("<:" ++ nm ++ ":" ++ emojiId ++ ">") :: r.1, r.2)

/-- The fetch-and-edit phase (role.py lines 53-63).  `message = None`
initially; when a stored id exists the message is fetched and edited:
success leaves `message` set, `discord.NotFound` is caught with a warning
and leaves `message = None` (falling through to creation), and any other
`discord.HTTPException` makes the whole call `return` early, which we
signal with `.error ()`.  The boolean records whether `message` is set. -/
def editPhase (st : RMState) (env : SyncEnv) (content : String) :
    Except Unit (List Effect × Bool) :=
  if st.role_message_id ≠ 0 then
    match env.editOutcome with
    | .ok => .ok ([.editMsg st.role_message_id content], true)
    | .notFound => .ok ([], false)
    | .httpError => .error ()
  else .ok ([], false)

/-- Model of `RoleManager.post_or_update_role_message` (role.py lines 20-81) as a
trace semantics: the effects performed, in order, and the uncaught Python
exception if the call raised one.  Mirrors the source: select the channel id
and raise `ValueError` when it is falsy; return after a log when the channel
does not resolve; render the content; fetch-and-edit when a stored id
exists; otherwise send a new message, set the in-memory id and persist it;
finally attach every marker as a reaction. -/
def postOrUpdate (st : RMState) (env : SyncEnv) : List Effect × Option PyErr :=
  if selectedChannelId st = 0 then
    ([], some .valueError)
  else if env.channelFound = false then
    ([], none)
  else
    match renderContent st env.getRole with
    | .error e => ([], some e)
    | .ok content =>
      match editPhase st env content with
      | .error () => ([], none)
      | .ok (effs, edited) =>
        let createEffs :=
          if edited then ([] : List Effect)
          else [.sendMsg content, .setMemId env.newMessageId,
                .persist "role_message_id" env.newMessageId]
        let r := addReactionsRun st.emoji_ids st.emoji_to_role
        (effs ++ createEffs ++ r.1, r.2)

/-! handle_role (role.py lines 44-87, dc_bot.py lines 118-160)

Members and the bot user are identified by their ids; discord.py compares a
`Member` with the bot's `ClientUser` by id, so `member == self.bot.user` is
an id comparison.  `payload.emoji.id` for a custom emoji is an integer; the
code looks up `str(payload.emoji.id)` among the string keys of
`emoji_to_role`. -/

/-- The fields of `discord.RawReactionActionEvent` the handler reads.
`member` models `payload.member` (present on reaction-add events). -/
structure Payload where
  message_id : Nat
  guild_id : Nat
  emoji_id : Nat
  user_id : Nat
  member : Option Nat
  deriving DecidableEq, Repr

/-- A guild as the handler sees it: which role ids `get_role` resolves and
what `get_member` returns for a user id. -/
structure Guild where
  hasRole : Nat → Bool
  getMember : Nat → Option Nat

/-- The environment of a `handle_role` call: `bot.get_guild` and the bot's
own user id. -/
structure HandleEnv where
  getGuild : Nat → Option Guild
  botUserId : Nat

/-- The role-mutation call `handle_role` can issue against Discord. -/
inductive RoleCall where
  /-- Call `member.add_roles(role)`. -/
  | addRoles (memberId roleId : Nat)
  /-- Call `member.remove_roles(role)`. -/
  | removeRoles (memberId roleId : Nat)
  deriving DecidableEq, Repr

/-- Model of `RoleManager.handle_role(payload, add)` (role.py lines 44-87): returns
the single role-mutation call issued, or `none` when any guard returns
early.  Guards in source order: message id mismatch; unresolved guild;
marker id absent from `emoji_to_role`; falsy `role_id`; role not in guild;
member absent (`payload.member` for add, `guild.get_member` for remove);
the member being the bot itself.  The `try/except` around the mutation only
absorbs its delivery failure and does not change which call is issued. -/
def handle_role (st : RMState) (env : HandleEnv) (payload : Payload) (add : Bool) :
    Option RoleCall :=
  if payload.message_id ≠ st.role_message_id then none
  else
    match env.getGuild payload.guild_id with
    | none => none
    | some guild =>
      let emoji := Nat.repr payload.emoji_id
      match List.lookup emoji st.emoji_to_role with
      | none => none
      | some info =>
        if info.role_id = 0 then none
        else if guild.hasRole info.role_id = false then none
        else
          match (if add then payload.member else guild.getMember payload.user_id) with
          | none => none
          | some memberId =>
            if memberId = env.botUserId then none
            else if add then some (.addRoles memberId info.role_id)
            else some (.removeRoles memberId info.role_id)

/-! ChannelManager (src/utils/channel.py)

The archival pipeline.  `save_path` is the constant `"download"` set in
`__init__`.  The channel's history (already in chronological, oldest-first
order as requested with `oldest_first=True`) is the environment's answer to
`get_channel`; each attachment download runs through one shared session and
its outcome is a function of the URL. -/

/-- One `discord.Attachment` of a message: its URL and original filename. -/
structure Attachment where
  url : String
  filename : String
  deriving DecidableEq, Repr

/-- One `discord.Message` as the pipeline reads it. -/
structure Msg where
  id : Nat
  author : String
  timestamp : String
  content : String
  attachments : List Attachment
  deriving DecidableEq, Repr

/-- The serialized attachment record appended to `msg_info['attachments']`
(channel.py lines 71-74): exactly the two fields `url` and `save_as`. -/
structure AttachmentRecord where
  url : String
  save_as : String
  deriving DecidableEq, Repr

/-- One element of the `msg_data` list (channel.py lines 62-68). -/
structure MsgRecord where
  id : Nat
  author : String
  timestamp : String
  content : String
  attachments : List AttachmentRecord
  deriving DecidableEq, Repr

/-- Constant `self.save_path`, set to `"download"` in `ChannelManager.__init__`. -/
def save_path : String := "download"

/-- The destination path computed for an attachment (channel.py line 72):
`os.path.join(self.save_path, f"{msg.id}_{attachment.filename}")` — a
function of the message id and the original filename only. -/
def filePath (msgId : Nat) (filename : String) : String :=
  save_path ++ "/" ++ Nat.repr msgId ++ "_" ++ filename

/-- Outcome of one `download_image` call. -/
inductive DlOutcome where
  | success
  | failed
  deriving DecidableEq, Repr

/-- Model of `ChannelManager.download_image` (channel.py lines 12-20): a non-200
response or any raised exception is caught and logged inside the function,
so the call always completes, with the file written only on success.
`dlOk url` says whether the GET returned HTTP 200 without a transport
error. -/
def download_image (dlOk : String → Bool) (url : String) (file_path : String) :
    DlOutcome :=
  if dlOk url then .success else .failed

/-- The record-building loop body of `fetch_all_messages` (channel.py lines
62-76): the per-message record plus the download tasks `(url, file_path)`
scheduled for its attachments. -/
def buildMsgRecord (msg : Msg) : MsgRecord :=
  { id := msg.id
    author := msg.author
    timestamp := msg.timestamp
    content := msg.content
    attachments := msg.attachments.map
      (fun a => { url := a.url, save_as := filePath msg.id a.filename }) }

/-- The download tasks scheduled for one message, in attachment order. -/
def msgTasks (msg : Msg) : List (String × String) :=
  msg.attachments.map (fun a => (a.url, filePath msg.id a.filename))

/-- The collection phase of `fetch_all_messages`: fold over the fetched
history building `msg_data` and `download_task` in order. -/
def collectRun : List Msg → List MsgRecord × List (String × String)
  | [] => ([], [])
  | m :: rest =>
    let r := collectRun rest
    (buildMsgRecord m :: r.1, msgTasks m ++ r.2)

/-- Model of `fetch_all_messages` after the history is fetched (channel.py lines
56-80): build all records and tasks, then `asyncio.gather` runs every
scheduled download to completion — no download raises, so the gather never
cancels siblings — and the records are returned unchanged. -/
def runArchive (dlOk : String → Bool) (history : List Msg) :
    List MsgRecord × List DlOutcome :=
  let c := collectRun history
  (c.1, c.2.map (fun t => download_image dlOk t.1 t.2))

/-- What a completed `handle_channel` run produced. -/
inductive ArchiveOutcome where
  /-- Case `channel_id is None`: the error was logged and the method returned
  with no archive performed. -/
  | skipped
  /-- The artifact written by `save_to_json` (the `msg_data` list), the
  outcomes of the gathered downloads, and whether `save_path` was created. -/
  | completed (artifact : List MsgRecord) (downloads : List DlOutcome) (madeDir : Bool)

/-- The environment of one archive run: `bot_client.get_channel` (yielding a
channel's history when it resolves), the per-URL download outcomes, and
whether the save directory already exists. -/
structure ArchiveEnv where
  getChannel : Nat → Option (List Msg)
  dlOk : String → Bool
  dirExists : Bool

/-- Model of `ChannelManager.handle_channel` (channel.py lines 92-99) composed with
`save_to_json` and `fetch_all_messages`: when `self.channel_id is None` it
logs `"❌ channel_id is not setting."` and returns normally; otherwise it
creates `save_path` if absent and archives.  `fetch_channel` returning
`None` makes `channel.history` raise `AttributeError`, which propagates. -/
def handle_channel (env : ArchiveEnv) (channel_id : Option Nat) :
    Except PyErr ArchiveOutcome :=
  match channel_id with
  | none => .ok .skipped
  | some cid =>
    let madeDir := !env.dirExists
    match env.getChannel cid with
    | none => .error .attributeError
    | some history =>
      let r := runArchive env.dlOk history
      .ok (.completed r.1 r.2 madeDir)

/-! The serialized artifact (channel.py lines 86-89)

`save_to_json` passes `msg_data` to `json.dump`, so the JSON value written
to the destination file is exactly the nested dict/list structure built in
`fetch_all_messages`.  We reify that JSON value to state what fields the
artifact carries. -/

/-- The JSON values `json.dump` receives here. -/
inductive JVal where
  | num (n : Nat)
  | str (s : String)
  | arr (elems : List JVal)
  | obj (fields : List (String × JVal))

/-- The keys of a JSON object (and `[]` for non-objects). -/
def JVal.keys : JVal → List String
  | .obj fields => fields.map (fun p => p.1)
  | _ => []

/-- The JSON object serialized for one attachment record:
`{'url': url, 'save_as': file_path}`. -/
def attachmentJson (a : AttachmentRecord) : JVal :=
  .obj [("url", .str a.url), ("save_as", .str a.save_as)]

/-- The JSON object serialized for one message record (channel.py lines
62-68). -/
def msgJson (m : MsgRecord) : JVal :=
  .obj [("id", .num m.id), ("author", .str m.author),
        ("timestamp", .str m.timestamp), ("content", .str m.content),
        ("attachments", .arr (m.attachments.map attachmentJson))]

/-- The top-level JSON value `save_to_json` writes: the ordered list of
message records. -/
def artifactJson (records : List MsgRecord) : JVal :=
  .arr (records.map msgJson)

/-! Spec-side rendering, for the refinement comparison of C3

The spec describes the rendered content as the preamble followed by one line
per RoleBinding, with no further condition. -/

/-- Modelled from the spec: "Renders content by concatenating the configured
preamble with one line per RoleBinding in table iteration order, each line
embedding the role's display name and the marker's rendered form."  Every
binding contributes its line; no role-resolution filter appears in the
spec's sentence. -/
def renderContentSpec (ids : List (String × String)) (bindings : List (String × RoleInfo))
    (preamble : String) : String :=
  preamble ++ String.join (bindings.map
    (fun p => lineFor ((List.lookup p.1 ids).getD "") p.1 p.2.role_name))

/-- The lines the code actually emits: one per binding whose role resolves,
in table iteration order. -/
def resolvedLines (ids : List (String × String)) (getRole : Nat → Bool)
    (bindings : List (String × RoleInfo)) : List String :=
  (bindings.filter (fun p => getRole p.2.role_id)).map
    (fun p => lineFor ((List.lookup p.1 ids).getD "") p.1 p.2.role_name)

/-- Concatenation of a list of rendered lines. -/
def joinLines : List String → String
  | [] => ""
  | s :: rest => s ++ joinLines rest

/-- Concrete archive environment used in counterexamples and witnesses. -/
def archiveEnvW : ArchiveEnv :=
  { getChannel := fun _ => none, dlOk := fun _ => true, dirExists := true }

/-- A concrete message with one attachment, for counterexamples. -/
def msgW : Msg :=
  { id := 7, author := "u", timestamp := "2024-01-01", content := "hello",
    attachments := [{ url := "http://h/a.png", filename := "a.png" }] }

/-- A concrete message with two attachments sharing a filename. -/
def msgTwin : Msg :=
  { id := 5, author := "u", timestamp := "t", content := "c",
    attachments := [{ url := "http://h/1", filename := "p.png" },
                    { url := "http://h/2", filename := "p.png" }] }

/-! Helper lemmas -/

theorem collectRun_records_length (history : List Msg) :
    (collectRun history).1.length = history.length := by
  induction history with
  | nil => rfl
  | cons m rest ih => simp [collectRun, ih]

theorem collectRun_tasks_length (history : List Msg) :
    (collectRun history).2.length
      = (history.map (fun m => m.attachments.length)).sum := by
  induction history with
  | nil => rfl
  | cons m rest ih => simp [collectRun, msgTasks, ih]

theorem collectRun_records_fields (history : List Msg) :
    List.Forall₂
      (fun (m : Msg) (r : MsgRecord) =>
        r.id = m.id ∧ r.author = m.author ∧ r.timestamp = m.timestamp
          ∧ r.content = m.content)
      history (collectRun history).1 := by
  induction history with
  | nil => exact List.Forall₂.nil
  | cons m rest ih =>
    exact List.Forall₂.cons ⟨rfl, rfl, rfl, rfl⟩ ih

/-! Claim C1 (corrected)

The spec's contract says `archive(channel_id, destinationFile)` fails with a
ConfigurationError when the channel id is unset.  `handle_channel`
(channel.py lines 92-95) instead logs `"❌ channel_id is not setting."` and
executes a plain `return`: the caller observes a normal return, no exception
propagates, and no archive is performed. -/

/-- Claim C1, counterexample: a concrete invocation of `handle_channel` with
the channel id unset returns normally (`Except.ok`) — it does not fail with
any propagating error, refuting the claimed ConfigurationError contract. -/
theorem handleChannel_unset_id_returns_ok :
    handle_channel archiveEnvW none = Except.ok ArchiveOutcome.skipped := rfl

/-- Claim C1, amended: for every invocation of `handle_channel` with the
channel id unset, the operation logs the error and returns normally without
performing any archival work; no exception propagates to the caller. -/
theorem handleChannel_unset_id_skips (env : ArchiveEnv) :
    handle_channel env none = Except.ok ArchiveOutcome.skipped := rfl

/-! Claim C10 (confirmed)

The destination path (channel.py line 72) is
`os.path.join(self.save_path, f"{msg.id}_{attachment.filename}")`, a function
of the message id and the original filename alone.  Two attachments of the
same message with equal filenames therefore get the same path, and both of
their scheduled downloads write to that one file. -/

/-- Claim C10: for every message carrying two attachments with the same
original filename, the computed destination paths coincide, and the download
tasks scheduled by `fetch_all_messages` for the two attachments target the
same file. -/
theorem samefile_attachments_collide (m : Msg) (a₁ a₂ : Attachment)
    (h₁ : a₁ ∈ m.attachments) (h₂ : a₂ ∈ m.attachments)
    (hf : a₁.filename = a₂.filename) :
    filePath m.id a₁.filename = filePath m.id a₂.filename
    ∧ (a₁.url, filePath m.id a₁.filename) ∈ msgTasks m
    ∧ (a₂.url, filePath m.id a₁.filename) ∈ msgTasks m := by
  refine ⟨by rw [hf], ?_, ?_⟩
  · exact List.mem_map.mpr ⟨a₁, h₁, rfl⟩
  · exact List.mem_map.mpr ⟨a₂, h₂, by rw [hf]⟩

/-- Claim C10, witness: in the concrete message `msgTwin`, whose two
attachments are both named `p.png`, both downloads target
`download/5_p.png`. -/
theorem samefile_attachments_collide_witness :
    filePath 5 "p.png" = filePath 5 "p.png"
    ∧ (("http://h/1", filePath 5 "p.png") ∈ msgTasks msgTwin)
    ∧ (("http://h/2", filePath 5 "p.png") ∈ msgTasks msgTwin) :=
  samefile_attachments_collide msgTwin
    { url := "http://h/1", filename := "p.png" }
    { url := "http://h/2", filename := "p.png" }
    (by decide) (by decide) rfl

/-! Claim C8 (confirmed)

`download_image` catches non-200 statuses and every exception internally
(channel.py lines 12-20), so no scheduled download ever raises into the
`asyncio.gather`, and the gather completes with every sibling download run.
The `msg_data` records are built before and independently of the downloads
(lines 62-76), so the artifact holds one record per message of the history
whatever subset of downloads fails. -/

/-- Claim C8: for every archive run and every pattern of per-URL download
failures, the run completes with an outcome for every scheduled download
(one per attachment of the history), and the artifact contains a record for
every message of the history, carrying that message's id, author, timestamp
and content. -/
theorem archive_tolerates_download_failures (dlOk : String → Bool) (history : List Msg) :
    (runArchive dlOk history).1.length = history.length
    ∧ List.Forall₂
        (fun (m : Msg) (r : MsgRecord) =>
          r.id = m.id ∧ r.author = m.author ∧ r.timestamp = m.timestamp
            ∧ r.content = m.content)
        history (runArchive dlOk history).1
    ∧ (runArchive dlOk history).2.length
        = (history.map (fun m => m.attachments.length)).sum := by
  refine ⟨collectRun_records_length history, collectRun_records_fields history, ?_⟩
  show ((collectRun history).2.map _).length = _
  rw [List.length_map]
  exact collectRun_tasks_length history

/-! Claim C4 (corrected)

The attachment records appended to `msg_info['attachments']` (channel.py
lines 71-74) hold exactly the fields `url` and `save_as`.  No download
outcome is recorded anywhere in `msg_data`: the serialized artifact is
identical whether every download succeeds or every download fails. -/

/-- Claim C4, counterexample: a concrete archive run over one message with
one attachment, once with all downloads failing and once with all
succeeding: the download outcomes differ, yet the serialized artifact is
identical in the two runs, and the attachment object's keys are exactly
`url` and `save_as` — there is no outcome field, so the failing subset is
not (and cannot be) marked failed in the artifact. -/
theorem artifact_lacks_outcome_field :
    (runArchive (fun _ => false) [msgW]).2 ≠ (runArchive (fun _ => true) [msgW]).2
    ∧ artifactJson (runArchive (fun _ => false) [msgW]).1
        = artifactJson (runArchive (fun _ => true) [msgW]).1
    ∧ JVal.keys (attachmentJson { url := "http://h/a.png", save_as := filePath 7 "a.png" })
        = ["url", "save_as"] :=
  ⟨by decide, rfl, rfl⟩

/-- Claim C4, amended: every AttachmentRecord written to the artifact
carries exactly the source URL and the destination path — no download
outcome field — and the serialized artifact is the same whatever subset of
downloads failed (failures are only logged, never recorded). -/
theorem artifact_outcome_free (dlOk dlOk' : String → Bool) (history : List Msg) :
    artifactJson (runArchive dlOk history).1
      = artifactJson (runArchive dlOk' history).1
    ∧ ∀ a : AttachmentRecord, JVal.keys (attachmentJson a) = ["url", "save_as"] :=
  ⟨rfl, fun _ => rfl⟩

theorem lookup_map_setKey (k : String) (v : Nat) :
    ∀ cfg : List (String × Nat), cfg.any (fun p => p.1 = k) = true →
      List.lookup k (cfg.map (fun p => if p.1 = k then (k, v) else p)) = some v := by
  intro cfg
  induction cfg with
  | nil => intro h; simp at h
  | cons a t ih =>
    obtain ⟨a1, a2⟩ := a
    intro h
    by_cases ha : a1 = k
    · subst ha
      simp only [List.map_cons, if_pos rfl]
      simp [List.lookup]
    · have ht : t.any (fun p => p.1 = k) = true := by
        simp only [List.any_cons, Bool.or_eq_true, decide_eq_true_eq] at h
        rcases h with h | h
        · exact absurd h ha
        · exact h
      have hk : (k == a1) = false := by
        simp only [beq_eq_false_iff_ne, ne_eq]
        exact fun hh => ha hh.symm
      simp only [List.map_cons]
      rw [if_neg ha]
      simp only [List.lookup, hk]
      exact ih ht

theorem lookup_append_new (k : String) (v : Nat) :
    ∀ cfg : List (String × Nat), cfg.any (fun p => p.1 = k) = false →
      List.lookup k (cfg ++ [(k, v)]) = some v := by
  intro cfg
  induction cfg with
  | nil => simp [List.lookup]
  | cons a t ih =>
    intro h
    obtain ⟨a1, a2⟩ := a
    simp only [List.any_cons, Bool.or_eq_false_iff, decide_eq_false_iff_not] at h
    have hk : (k == a1) = false := by
      simp only [beq_eq_false_iff_ne, ne_eq]
      exact fun hh => h.1 hh.symm
    simp only [List.cons_append, List.lookup, hk]
    exact ih (by simp [h.2])

theorem lookup_setKey (cfg : List (String × Nat)) (k : String) (v : Nat) :
    List.lookup k (setKey cfg k v) = some v := by
  unfold setKey
  by_cases h : cfg.any (fun p => p.1 = k) = true
  · rw [if_pos h]; exact lookup_map_setKey k v cfg h
  · rw [if_neg h]
    exact lookup_append_new k v cfg (Bool.eq_false_iff.mpr h)

/-! Claim C2 (corrected)

`save_config` (util.py lines 29-31, dc_bot.py lines 29-31) opens the backing
file with mode `"w"` — truncating it immediately — and streams the JSON text
into it, with no temporary file and no atomic replace.  A completed write
does store the new configuration, but a write that fails partway leaves the
file holding a prefix of the new serialization: the prior on-disk state is
destroyed, so the claimed "failure reported with prior state preserved"
branch does not hold, and a partially written file is possible. -/

/-- Claim C2, counterexample: a concrete `set("role_message_id", 2)` over a
file holding the serialization of `{"role_message_id": 1}`, with the write
failing after 3 characters: the call reports failure, yet the resulting
on-disk content is neither the prior state nor the new serialization — the
file is left partially written, refuting the claimed atomicity. -/
theorem configSet_partial_write_corrupts :
    (configSet [("role_message_id", 1)] (dumpConfig [("role_message_id", 1)])
        "role_message_id" 2 (some 3)).2.2 = false
    ∧ (configSet [("role_message_id", 1)] (dumpConfig [("role_message_id", 1)])
        "role_message_id" 2 (some 3)).2.1 ≠ dumpConfig [("role_message_id", 1)]
    ∧ (configSet [("role_message_id", 1)] (dumpConfig [("role_message_id", 1)])
        "role_message_id" 2 (some 3)).2.1
        ≠ dumpConfig (setKey [("role_message_id", 1)] "role_message_id" 2) := by
  decide

/-- Claim C2, amended: `set` rewrites the whole backing file in place.  When
the write completes, the new value is durably stored — the file holds exactly
the serialization of the updated mapping and `get` of the key returns the
new value.  When the write fails after `n` characters, the call reports
failure but the file is left holding the first `n` characters of the new
serialization: the prior on-disk state is not preserved and the file can be
left partially written. -/
theorem configSet_durable_or_partial (cfg : List (String × Nat)) (disk : String)
    (k : String) (v : Nat) :
    ((configSet cfg disk k v none).2.1 = dumpConfig (setKey cfg k v)
      ∧ (configSet cfg disk k v none).2.2 = true
      ∧ List.lookup k (configSet cfg disk k v none).1 = some v)
    ∧ ∀ n : Nat,
        (configSet cfg disk k v (some n)).2.2 = false
        ∧ (configSet cfg disk k v (some n)).2.1 = (dumpConfig (setKey cfg k v)).take n :=
  ⟨⟨rfl, rfl, lookup_setKey cfg k v⟩, fun _ => ⟨rfl, rfl⟩⟩

/-! Claim C7 (confirmed)

Every path of `handle_role` that issues a role mutation first passes all the
guards (role.py lines 45-77): matching message id, resolved guild, bound
marker, truthy and resolvable role, resolved member, member distinct from
the bot.  Each of the four conditions of the claim falsifies one of those
guards, so no `add_roles`/`remove_roles` call is issued. -/

/-- A concrete reconciler state used by witnesses. -/
def stWitness : RMState :=
  { dev_mode := false, rule_msg := "R", role_message_id := 1,
    emoji_ids := [("1", "star")],
    emoji_to_role := [("1", { role_id := 5, role_name := "VIP" })],
    test_command_channel_id := 0, bot_command_channel_id := 9 }

/-- Claim C7: `handle_role` issues no role grant or revoke call whenever the
event's message id differs from the stored canonical message id, or the
event's marker id has no entry in `emoji_to_role`, or the bound role does
not resolve in the guild, or the acting member resolves to the bot itself. -/
theorem handle_role_noop (st : RMState) (env : HandleEnv) (payload : Payload)
    (add : Bool)
    (h : payload.message_id ≠ st.role_message_id
      ∨ List.lookup (Nat.repr payload.emoji_id) st.emoji_to_role = none
      ∨ (∃ g info, env.getGuild payload.guild_id = some g
          ∧ List.lookup (Nat.repr payload.emoji_id) st.emoji_to_role = some info
          ∧ g.hasRole info.role_id = false)
      ∨ (∃ g, env.getGuild payload.guild_id = some g
          ∧ (if add then payload.member else g.getMember payload.user_id)
              = some env.botUserId)) :
    handle_role st env payload add = none := by
  unfold handle_role
  rcases h with h1 | h2 | ⟨g, info, hg, hi, hr⟩ | ⟨g, hg, hb⟩
  · simp [h1]
  · by_cases hm : payload.message_id ≠ st.role_message_id
    · simp [hm]
    · simp only [if_neg hm]
      cases hgg : env.getGuild payload.guild_id with
      | none => rfl
      | some g => simp [h2]
  · by_cases hm : payload.message_id ≠ st.role_message_id
    · simp [hm]
    · simp only [if_neg hm, hg, hi, hr]
      by_cases hz : info.role_id = 0
      · simp [hz]
      · simp [hz, hr]
  · by_cases hm : payload.message_id ≠ st.role_message_id
    · simp [hm]
    · simp only [if_neg hm, hg]
      cases hlk : List.lookup (Nat.repr payload.emoji_id) st.emoji_to_role with
      | none => simp
      | some info =>
        by_cases hz : info.role_id = 0
        · simp [hz]
        · by_cases hhr : g.hasRole info.role_id = false
          · simp [hz, hhr]
          · simp [hz, hhr, hb]

/-- Claim C7, witness: a concrete reaction-add event whose message id (2)
differs from the stored canonical message id (1) results in no role
mutation call. -/
theorem handle_role_noop_witness :
    handle_role stWitness
      { getGuild := fun _ => none, botUserId := 99 }
      { message_id := 2, guild_id := 3, emoji_id := 1, user_id := 4,
        member := some 4 }
      true = none :=
  handle_role_noop stWitness
    { getGuild := fun _ => none, botUserId := 99 }
    { message_id := 2, guild_id := 3, emoji_id := 1, user_id := 4,
      member := some 4 }
    true (Or.inl (by decide))

theorem addReactionsRun_missing (ids : List (String × String))
    (l : List (String × RoleInfo)) (emojiId : String) (info : RoleInfo)
    (hbind : (emojiId, info) ∈ l) (hmiss : List.lookup emojiId ids = none) :
    (addReactionsRun ids l).2 = some .keyError := by
  induction l with
  | nil => cases hbind
  | cons p rest ih =>
    obtain ⟨e, i⟩ := p
    cases hp : List.lookup e ids with
    | none => simp [addReactionsRun, hp]
    | some nm =>
      rcases List.mem_cons.mp hbind with h | h
      · have he : emojiId = e := congrArg Prod.fst h
        rw [he] at hmiss
        rw [hmiss] at hp
        cases hp
      · simp [addReactionsRun, hp, ih h]

theorem renderAux_missing (ids : List (String × String)) (g : Nat → Bool)
    (l : List (String × RoleInfo)) (acc : String) (emojiId : String)
    (info : RoleInfo) (hbind : (emojiId, info) ∈ l)
    (hmiss : List.lookup emojiId ids = none) (hres : g info.role_id = true) :
    renderAux ids g l acc = .error .keyError := by
  induction l generalizing acc with
  | nil => cases hbind
  | cons p rest ih =>
    obtain ⟨e, i⟩ := p
    rcases List.mem_cons.mp hbind with h | h
    · have he : emojiId = e := congrArg Prod.fst h
      have hi : info = i := congrArg Prod.snd h
      subst he; subst hi
      simp [renderAux, hres, hmiss]
    · by_cases hg : g i.role_id
      · cases hl : List.lookup e ids with
        | none => simp [renderAux, hg, hl]
        | some nm => simp [renderAux, hg, hl, ih _ h]
      · simp [renderAux, hg, ih _ h]

theorem renderAux_error_eq (ids : List (String × String)) (g : Nat → Bool)
    (l : List (String × RoleInfo)) (acc : String) (e : PyErr)
    (h : renderAux ids g l acc = .error e) : e = .keyError := by
  induction l generalizing acc with
  | nil => simp [renderAux] at h
  | cons p rest ih =>
    obtain ⟨eid, i⟩ := p
    by_cases hg : g i.role_id
    · cases hl : List.lookup eid ids with
      | none =>
        simp [renderAux, hg, hl] at h
        exact h.symm
      | some nm =>
        simp only [renderAux, if_pos hg, hl] at h
        exact ih _ h
    · simp only [renderAux, if_neg hg] at h
      exact ih _ h

theorem editPhase_proceeds (st : RMState) (env : SyncEnv) (content : String)
    (h : st.role_message_id = 0 ∨ env.editOutcome ≠ .httpError) :
    ∃ p, editPhase st env content = .ok p := by
  unfold editPhase
  rcases h with h0 | hne
  · rw [if_neg (by simp [h0])]
    exact ⟨_, rfl⟩
  · by_cases hid : st.role_message_id ≠ 0
    · rw [if_pos hid]
      cases heo : env.editOutcome with
      | ok => exact ⟨_, rfl⟩
      | notFound => exact ⟨_, rfl⟩
      | httpError => exact absurd heo hne
    · rw [if_neg hid]
      exact ⟨_, rfl⟩

/-! Claim C9 (confirmed)

When a marker id is a key of `emoji_to_role` but has no entry in
`emoji_ids`, the subscript `self.emoji_ids[emoji_id]` raises `KeyError`.  In
the marker-attachment loop (role.py line 73) the subscript sits outside the
`try` that guards only `add_reaction`, so the exception escapes the loop and
aborts the whole pass; in content rendering (role.py line 51) the subscript
is reached whenever that binding's role resolves, aborting the pass before
any message operation. -/

/-- Claim C9: for every configuration in which some marker id is a key of
`emoji_to_role` but absent from `emoji_ids`, a reconciliation pass that gets
past the channel guards and is not cut short by an edit delivery failure
ends with an uncaught `KeyError` (raised at latest in the marker-attachment
loop), and whenever that binding's role resolves the `KeyError` is raised
already in content rendering. -/
theorem missing_marker_name_aborts_pass (st : RMState) (env : SyncEnv)
    (emojiId : String) (info : RoleInfo)
    (hch : selectedChannelId st ≠ 0)
    (hfound : env.channelFound = true)
    (hedit : st.role_message_id = 0 ∨ env.editOutcome ≠ .httpError)
    (hbind : (emojiId, info) ∈ st.emoji_to_role)
    (hmiss : List.lookup emojiId st.emoji_ids = none) :
    (postOrUpdate st env).2 = some .keyError
    ∧ (env.getRole info.role_id = true →
        renderContent st env.getRole = .error .keyError) := by
  constructor
  · unfold postOrUpdate
    rw [if_neg hch]
    simp only [hfound]
    rw [if_neg (by decide : ¬(true = false))]
    cases hrc : renderContent st env.getRole with
    | error e =>
      have he : e = .keyError :=
        renderAux_error_eq st.emoji_ids env.getRole st.emoji_to_role st.rule_msg e hrc
      rw [he]
    | ok content =>
      obtain ⟨p, hp⟩ := editPhase_proceeds st env content hedit
      obtain ⟨effs, edited⟩ := p
      simp only [hp]
      exact addReactionsRun_missing st.emoji_ids st.emoji_to_role emojiId info hbind hmiss
  · intro hres
    exact renderAux_missing st.emoji_ids env.getRole st.emoji_to_role st.rule_msg
      emojiId info hbind hmiss hres

/-- A concrete state whose single binding has no `emoji_ids` entry. -/
def stMissingEmoji : RMState :=
  { dev_mode := false, rule_msg := "R", role_message_id := 0,
    emoji_ids := [],
    emoji_to_role := [("2", { role_id := 7, role_name := "X" })],
    test_command_channel_id := 0, bot_command_channel_id := 9 }

/-- Claim C9, witness: with the concrete state `stMissingEmoji` (marker "2"
bound but absent from `emoji_ids`) and a resolving guild, the pass dies with
an uncaught `KeyError`, and rendering already fails with that `KeyError`. -/
theorem missing_marker_name_aborts_pass_witness :
    (postOrUpdate stMissingEmoji
        { channelFound := true, getRole := fun _ => true,
          editOutcome := .ok, newMessageId := 42 }).2 = some .keyError
    ∧ ((fun _ => true : Nat → Bool) 7 = true →
        renderContent stMissingEmoji (fun _ => true) = .error .keyError) :=
  missing_marker_name_aborts_pass stMissingEmoji
    { channelFound := true, getRole := fun _ => true,
      editOutcome := .ok, newMessageId := 42 }
    "2" { role_id := 7, role_name := "X" }
    (by decide) rfl (Or.inl rfl) (by decide) rfl

theorem renderAux_resolved (ids : List (String × String)) (g : Nat → Bool)
    (l : List (String × RoleInfo)) (acc : String)
    (h : ∀ p ∈ l, g p.2.role_id = true → (List.lookup p.1 ids).isSome = true) :
    renderAux ids g l acc = .ok (acc ++ joinLines (resolvedLines ids g l)) := by
  induction l generalizing acc with
  | nil => simp [renderAux, resolvedLines, joinLines, String.append_empty]
  | cons p rest ih =>
    obtain ⟨e, i⟩ := p
    have hrest : ∀ q ∈ rest, g q.2.role_id = true → (List.lookup q.1 ids).isSome = true :=
      fun q hq => h q (List.mem_cons_of_mem _ hq)
    by_cases hg : g i.role_id
    · have hs := h (e, i) (List.mem_cons_self _ _) hg
      obtain ⟨nm, hnm⟩ := Option.isSome_iff_exists.mp hs
      simp only [renderAux, if_pos hg, hnm]
      rw [ih _ hrest]
      simp [resolvedLines, joinLines, hg, hnm, String.append_assoc]
    · simp only [renderAux, if_neg hg]
      rw [ih _ hrest]
      simp [resolvedLines, hg]

/-! Claim C3 (corrected)

The rendering loop (role.py lines 47-51) appends a binding's line only when
`channel.guild.get_role(role_info['role_id'])` resolves: a RoleBinding whose
role is absent from the guild contributes no line.  The spec's sentence — one
line per RoleBinding, unconditionally — therefore overstates the content.
The zero-binding half of the claim does hold. -/

/-- Claim C3, counterexample: a concrete configuration with exactly one
RoleBinding whose role does not resolve in the guild.  The code renders
exactly the preamble `"R"`, while the claimed formula (preamble plus one
line per RoleBinding) yields a strictly longer string, so the two differ. -/
theorem rendered_content_misses_unresolved_cex :
    renderContent
        { dev_mode := false, rule_msg := "R", role_message_id := 0,
          emoji_ids := [("1", "star")],
          emoji_to_role := [("1", { role_id := 5, role_name := "VIP" })],
          test_command_channel_id := 0, bot_command_channel_id := 9 }
        (fun _ => false)
      = Except.ok "R"
    ∧ renderContentSpec [("1", "star")]
        [("1", { role_id := 5, role_name := "VIP" })] "R"
      = "R" ++ lineFor "star" "1" "VIP"
    ∧ ("R" : String) ≠ "R" ++ lineFor "star" "1" "VIP" :=
  ⟨rfl, rfl, by decide⟩

/-- Claim C3, amended: provided every binding whose role resolves has its
marker id present in `emoji_ids`, the rendered content equals the configured
preamble concatenated with exactly one line per RoleBinding whose role
resolves in the guild, in table iteration order (each line embedding the
role's display name and the marker's rendered form); in particular, with
zero RoleBindings the rendered content equals exactly the preamble. -/
theorem rendered_content_eq (st : RMState) (g : Nat → Bool)
    (h : ∀ p ∈ st.emoji_to_role,
        g p.2.role_id = true → (List.lookup p.1 st.emoji_ids).isSome = true) :
    renderContent st g
      = .ok (st.rule_msg ++ joinLines (resolvedLines st.emoji_ids g st.emoji_to_role))
    ∧ (st.emoji_to_role = [] → renderContent st g = .ok st.rule_msg) := by
  constructor
  · exact renderAux_resolved st.emoji_ids g st.emoji_to_role st.rule_msg h
  · intro h0
    unfold renderContent
    rw [h0]
    simp [renderAux]

/-- Claim C3, witness: a concrete configuration with one resolving binding
renders the preamble followed by that binding's line, and the general
equation instantiates to it. -/
theorem rendered_content_eq_witness :
    renderContent
        { dev_mode := false, rule_msg := "R", role_message_id := 0,
          emoji_ids := [("1", "star")],
          emoji_to_role := [("1", { role_id := 5, role_name := "VIP" })],
          test_command_channel_id := 0, bot_command_channel_id := 9 }
        (fun _ => true)
      = .ok ("R" ++ joinLines (resolvedLines [("1", "star")] (fun _ => true)
              [("1", { role_id := 5, role_name := "VIP" })]))
    ∧ ([("1", ({ role_id := 5, role_name := "VIP" } : RoleInfo))] = []
        → renderContent
            { dev_mode := false, rule_msg := "R", role_message_id := 0,
              emoji_ids := [("1", "star")],
              emoji_to_role := [("1", { role_id := 5, role_name := "VIP" })],
              test_command_channel_id := 0, bot_command_channel_id := 9 }
            (fun _ => true) = .ok "R") :=
  rendered_content_eq
    { dev_mode := false, rule_msg := "R", role_message_id := 0,
      emoji_ids := [("1", "star")],
      emoji_to_role := [("1", { role_id := 5, role_name := "VIP" })],
      test_command_channel_id := 0, bot_command_channel_id := 9 }
    (fun _ => true) (by decide)

theorem addReactionsRun_effects (ids : List (String × String))
    (l : List (String × RoleInfo)) (e : Effect)
    (he : e ∈ (addReactionsRun ids l).1) : ∃ s, e = .addReaction s := by
  induction l with
  | nil => simp [addReactionsRun] at he
  | cons p rest ih =>
    obtain ⟨eid, i⟩ := p
    cases hl : List.lookup eid ids with
    | none => simp [addReactionsRun, hl] at he
    | some nm =>
      simp only [addReactionsRun, hl] at he
      rcases List.mem_cons.mp he with h | h
      · exact ⟨_, h⟩
      · exact ih h

theorem editPhase_ok_cases (st : RMState) (env : SyncEnv) (content : String)
    (p : List Effect × Bool) (hp : editPhase st env content = .ok p) :
    p = ([.editMsg st.role_message_id content], true) ∨ p = ([], false) := by
  unfold editPhase at hp
  by_cases hid : st.role_message_id ≠ 0
  · rw [if_pos hid] at hp
    cases heo : env.editOutcome <;> rw [heo] at hp
    · cases hp
      left; rfl
    · cases hp
      right; rfl
    · cases hp
  · rw [if_neg hid] at hp
    cases hp
    right; rfl

/-! Claim C6 (confirmed)

In the fetch-and-edit block (role.py lines 53-63), `discord.NotFound` is
caught, logged as a warning, and execution continues with `message = None`,
so the `if message is None:` creation branch runs; any other
`discord.HTTPException` is caught and the method returns at once, so no
`channel.send` happens in that pass. -/

/-- Claim C6: in a reconciliation pass with a stored message id (channel
configured and resolved, rendering clean), a not-found outcome of the edit
makes the pass fall through to creating a new message, while any other
delivery failure of the edit makes the pass return early with no effects at
all — in particular no message is created, so no duplicate is posted. -/
theorem edit_failure_branches (st : RMState) (env : SyncEnv)
    (hid : st.role_message_id ≠ 0)
    (hch : selectedChannelId st ≠ 0)
    (hfound : env.channelFound = true)
    (hrc : ∃ c, renderContent st env.getRole = .ok c) :
    (env.editOutcome = .notFound →
        ∃ c, Effect.sendMsg c ∈ (postOrUpdate st env).1)
    ∧ (env.editOutcome = .httpError → postOrUpdate st env = ([], none)) := by
  obtain ⟨c, hc⟩ := hrc
  constructor
  · intro he
    have hep : editPhase st env c = .ok ([], false) := by
      unfold editPhase
      rw [if_pos hid, he]
    unfold postOrUpdate
    rw [if_neg hch]
    simp only [hfound]
    rw [if_neg (by decide : ¬(true = false))]
    simp only [hc, hep]
    exact ⟨c, by simp⟩
  · intro he
    have hep : editPhase st env c = .error () := by
      unfold editPhase
      rw [if_pos hid, he]
    unfold postOrUpdate
    rw [if_neg hch]
    simp only [hfound]
    rw [if_neg (by decide : ¬(true = false))]
    simp only [hc, hep]

/-- Claim C6, witness: with a stored id 1, resolved channel and a not-found
edit outcome, the concrete pass sends a new message; the edit-failure half
holds vacuously at this input. -/
theorem edit_failure_branches_witness :
    (({ channelFound := true, getRole := fun _ => false,
        editOutcome := .notFound, newMessageId := 42 } : SyncEnv).editOutcome
        = .notFound →
      ∃ c, Effect.sendMsg c ∈
        (postOrUpdate stWitness
          { channelFound := true, getRole := fun _ => false,
            editOutcome := .notFound, newMessageId := 42 }).1)
    ∧ (({ channelFound := true, getRole := fun _ => false,
          editOutcome := .notFound, newMessageId := 42 } : SyncEnv).editOutcome
          = .httpError →
        postOrUpdate stWitness
          { channelFound := true, getRole := fun _ => false,
            editOutcome := .notFound, newMessageId := 42 } = ([], none)) :=
  edit_failure_branches stWitness
    { channelFound := true, getRole := fun _ => false,
      editOutcome := .notFound, newMessageId := 42 }
    (by decide) (by decide) rfl ⟨"R", rfl⟩

/-! Claim C5 (confirmed)

The creation branch (role.py lines 65-69) runs `channel.send`, then assigns
`self.role_message_id`, then synchronously calls
`self.config.set("role_message_id", message.id)` — all before the
marker-attachment loop begins.  In trace terms: whenever a pass creates a
message, its effect trace is exactly send, in-memory assignment, persist,
followed only by reaction attachments. -/

/-- Claim C5: in every reconciliation pass that creates a new canonical
message, the trace starts with the send, immediately followed by the
in-memory assignment and the persist of the new id to Configuration, and
everything after the persist is marker attachment — so the id is persisted
immediately upon creation, before any marker is attached and before the
in-memory value can be read. -/
theorem creation_persists_before_markers (st : RMState) (env : SyncEnv)
    (h : ∃ c, Effect.sendMsg c ∈ (postOrUpdate st env).1) :
    ∃ c rest, (postOrUpdate st env).1
        = Effect.sendMsg c :: Effect.setMemId env.newMessageId
            :: Effect.persist "role_message_id" env.newMessageId :: rest
      ∧ ∀ e ∈ rest, ∃ s, e = Effect.addReaction s := by
  obtain ⟨c0, hc0⟩ := h
  by_cases hch : selectedChannelId st = 0
  · simp [postOrUpdate, hch] at hc0
  · by_cases hf : env.channelFound = false
    · simp [postOrUpdate, hch, hf] at hc0
    · have hf' : env.channelFound = true := by
        cases hcf : env.channelFound
        · exact absurd hcf hf
        · rfl
      cases hrc : renderContent st env.getRole with
      | error e => simp [postOrUpdate, hch, hf', hrc] at hc0
      | ok content =>
        cases hep : editPhase st env content with
        | error u => simp [postOrUpdate, hch, hf', hrc, hep] at hc0
        | ok p =>
          rcases editPhase_ok_cases st env content p hep with hpe | hpe <;> subst hpe
          · exfalso
            simp [postOrUpdate, hch, hf', hrc, hep] at hc0
            obtain ⟨s, hs⟩ :=
              addReactionsRun_effects st.emoji_ids st.emoji_to_role _ hc0
            cases hs
          · refine ⟨content, (addReactionsRun st.emoji_ids st.emoji_to_role).1, ?_, ?_⟩
            · simp [postOrUpdate, hch, hf', hrc, hep]
            · intro e he
              exact addReactionsRun_effects st.emoji_ids st.emoji_to_role e he

/-- Claim C5, witness: a concrete pass with no stored id creates the message
with content `"R"` and its trace is send, assign, persist, then reactions. -/
theorem creation_persists_before_markers_witness :
    ∃ c rest,
      (postOrUpdate
          { dev_mode := false, rule_msg := "R", role_message_id := 0,
            emoji_ids := [("1", "star")],
            emoji_to_role := [("1", { role_id := 5, role_name := "VIP" })],
            test_command_channel_id := 0, bot_command_channel_id := 9 }
          { channelFound := true, getRole := fun _ => false,
            editOutcome := .ok, newMessageId := 42 }).1
        = Effect.sendMsg c :: Effect.setMemId 42
            :: Effect.persist "role_message_id" 42 :: rest
      ∧ ∀ e ∈ rest, ∃ s, e = Effect.addReaction s :=
  creation_persists_before_markers
    { dev_mode := false, rule_msg := "R", role_message_id := 0,
      emoji_ids := [("1", "star")],
      emoji_to_role := [("1", { role_id := 5, role_name := "VIP" })],
      test_command_channel_id := 0, bot_command_channel_id := 9 }
    { channelFound := true, getRole := fun _ => false,
      editOutcome := .ok, newMessageId := 42 }
    ⟨"R", by decide⟩
